import Mathlib

/-!
Shallow embedding of the Espruino Waveform core (src/jswrap_waveform.c) and of
the nRF5x SDK software-interrupt driver
(targetlibs/nrf5x/nrf51_sdk/components/drivers_nrf/swi/nrf_drv_swi.c),
together with proofs of the behavioural properties of those functions.

The Timer/Task Runner (jstimer.c: jstStartSignal, jstGetLastBufferTimerTask,
jstStopBufferTimerTask) is not part of the sources; it is treated as an
external collaborator and appears as oracle parameters, following the
interface description of the design document (queryTask / scheduleTransfer /
cancelTask, each of which may fail).
-/

/-- Model of a C double (JsVarFloat) as the waveform code uses it: a finite
rational, one of the two infinities, or NaN.  Only the operations actually
performed by the source are provided. -/
inductive JsF
  | fin (q : ℚ)
  | posInf
  | negInf
  | nan
deriving DecidableEq, Repr

/-- C `isfinite`. -/
def JsF.isFinite : JsF → Bool
  | .fin _ => true
  | _ => false

/-- C comparison `f < 1` (false on NaN, false on +inf, true on -inf). -/
def JsF.ltOne : JsF → Bool
  | .fin q => decide (q < 1)
  | .negInf => true
  | _ => false

/-- C comparison `f > 0` (false on NaN and -inf, true on +inf). -/
def JsF.gtZero : JsF → Bool
  | .fin q => decide (0 < q)
  | .posInf => true
  | _ => false

/-- C division `t/1000` as applied to the `time` option. -/
def JsF.div1000 : JsF → JsF
  | .fin q => .fin (q / 1000)
  | x => x

/-- The start time handed to jstStartSignal: either `jshGetSystemTime()`
(the value of `startTime` when the `time` branch is not taken) or
`jshGetTimeFromMilliseconds(t/1000)`. -/
inductive STime
  | now
  | fromMs (t : JsF)
deriving DecidableEq, Repr

/-- The children of an options object that the waveform code reads:
`time` (jsvGetFloat of a missing child gives NaN, hence `Option`),
`repeat` and `doubleBuffer` (jsvGetBool of a missing child gives false,
hence plain `Bool`). -/
structure OptObj where
  time : Option JsF
  doRepeat : Bool
  doubleBuffer : Bool
deriving DecidableEq, Repr

/-- The `options` argument: undefined, an object, or any other value
(`jsvIsObject` and `jsvIsUndefined` both false). -/
inductive OptVal
  | undef
  | obj (o : OptObj)
  | nonObj
deriving DecidableEq, Repr

/-- A Waveform object's children as the code uses them.  `buffer` holds the
JsVarRef of the flattened backing storage that jswrap_waveform_getBuffer
returns for slot 0, `buffer2` the one for slot 1 (`none` when the child is
absent, i.e. single-buffered).  `currentBuffer` is the integer child of the
same name (`none` while it has never been created), `freq` the recorded
sample rate. -/
structure WF where
  running : Bool
  buffer : Nat
  buffer2 : Option Nat
  currentBuffer : Option Int
  freq : Option JsF
deriving DecidableEq, Repr

/-- The buffer fields of a UtilTimerTask: `currentBuffer` and `nextBuffer`
are JsVarRefs, with 0 meaning no buffer (the C code tests
`task.data.buffer.nextBuffer` for truthiness). -/
structure TimerTask where
  currentBuffer : Nat
  nextBuffer : Nat
deriving DecidableEq, Repr

/-- Modelled from the spec: jstGetLastBufferTimerTask (jstimer.c is not among
the sources).  Per the design document this is `queryTask(buffer)`, a
non-destructive lookup, from the flattened-buffer reference, of the timer
task (if any) still transferring that buffer. -/
abbrev RunnerQ := Nat → Option TimerTask

/-- Callback names queued by jsiQueueObjectCallbacks. -/
inductive EvName
  | onfinish
  | onbuffer
deriving DecidableEq, Repr

/-- Which child of the waveform is passed as the callback argument. -/
inductive Slot
  | primary
  | secondary
deriving DecidableEq, Repr

/-- One queued callback: target waveform id, event name, argument slot. -/
structure Event where
  wf : Nat
  name : EvName
  slot : Slot
deriving DecidableEq, Repr

/-- The jsError / jsWarn messages the waveform code can emit, one
constructor per distinct message. -/
inductive Diag
  | samplesMustBePositive
  | expectingOptionsObject
  | waveformAlreadyRunning
  | invalidPin
  | freqTooLow
  | unableToScheduleTimer
  | waveformNotRunning
  | waveformCouldntBeStopped
deriving DecidableEq, Repr

/-- jsWarn("Unable to schedule a timer") is the only non-fatal diagnostic;
everything else is a jsError. -/
def Diag.isWarning : Diag → Bool
  | .unableToScheduleTimer => true
  | _ => false

/-- Interpreter state relevant to waveforms: the object store (waveform id to
object), the hidden `\xffwave` active array (a list of waveform ids), the
queued callbacks and the emitted diagnostics. -/
structure St where
  store : Nat → Option WF
  active : List Nat
  events : List Event
  diags : List Diag

/-- Update one waveform object in the store. -/
def setWF (s : Nat → Option WF) (i : Nat) (w : WF) : Nat → Option WF :=
  fun j => if j = i then some w else s j

/-- The slot whose child is passed to the "buffer" callback:
`(currentBuffer==0) ? "buffer" : "buffer2"`. -/
def slotOf (n : Int) : Slot :=
  if n = 0 then .primary else .secondary

/-- One iteration of the loop body of jswrap_waveform_idle for the waveform
with id `i`: returns whether the waveform is kept in the active array, the
updated store, and the callbacks queued for it. -/
def idleOne (q : RunnerQ) (s : Nat → Option WF) (i : Nat) :
    Bool × (Nat → Option WF) × List Event :=
  match s i with
  | none => (true, s, [])
  | some w =>
    if w.running then
      match q w.buffer with
      | none =>
        (false, setWF s i { w with running := false }, [⟨i, .onfinish, .primary⟩])
      | some task =>
        if task.nextBuffer ≠ 0 ∧ task.nextBuffer ≠ task.currentBuffer then
          let cb : Int := if w.buffer = task.currentBuffer then 0 else 1
          let old : Int := w.currentBuffer.getD 0
          if old ≠ cb then
            (true, setWF s i { w with currentBuffer := some cb },
              [⟨i, .onbuffer, slotOf cb⟩])
          else
            (true, setWF s i { w with currentBuffer := some old }, [])
        else (true, s, [])
    else (false, s, [])

/-- The iteration of jswrap_waveform_idle over the active array: returns the
array after in-place removals, the updated store, and the queued callbacks
in order. -/
def idleGo (q : RunnerQ) : List Nat → (Nat → Option WF) →
    List Nat × (Nat → Option WF) × List Event
  | [], s => ([], s, [])
  | i :: rest, s =>
    let r1 := idleOne q s i
    let r2 := idleGo q rest r1.2.1
    (if r1.1 then i :: r2.1 else r2.1, r2.2.1, r1.2.2 ++ r2.2.2)

/-- jswrap_waveform_idle: one cooperative poll pass over the active set. -/
def jswrap_waveform_idle (q : RunnerQ) (st : St) : St :=
  let r := idleGo q st.active st.store
  { st with active := r.1, store := r.2.1, events := st.events ++ r.2.2 }

/-- jswrap_waveform_kill: the shutdown handler.  `stopOk` is the oracle for
jstStopBufferTimerTask (modelled from the spec: cancelTask(buffer) returns
success or failure; jstimer.c is not among the sources); every element is
removed from the active array regardless. -/
def jswrap_waveform_kill (st : St) (stopOk : Nat → Bool) : St :=
  let newDiags := st.active.foldl (fun acc i =>
    match st.store i with
    | some w =>
      if w.running && !(stopOk w.buffer) then acc ++ [Diag.waveformCouldntBeStopped]
      else acc
    | none => acc) ([] : List Diag)
  { st with active := [], diags := st.diags ++ newDiags }

/-- The result of jswrap_waveform_constructor on success: the lengths of the
allocated `buffer` and (when present) `buffer2` children. -/
structure NewWF where
  bufLen : Nat
  buf2Len : Option Nat
deriving DecidableEq, Repr

/-- jswrap_waveform_constructor.  The three Booleans are the allocation
oracles for the primary buffer, the second buffer and the Waveform object
(jsvars may run out of memory); `none` is the C `return 0`. -/
def jswrap_waveform_constructor (samples : Int) (options : OptVal)
    (allocBufOk allocBuf2Ok allocObjOk : Bool) : Option NewWF × List Diag :=
  if samples ≤ 0 then (none, [.samplesMustBePositive])
  else
    let doubleBuffer : Bool := match options with
      | .obj o => o.doubleBuffer
      | _ => false
    let optDiags : List Diag := match options with
      | .nonObj => [.expectingOptionsObject]
      | _ => []
    if !allocObjOk || !allocBufOk || (doubleBuffer && !allocBuf2Ok) then
      (none, optDiags)
    else
      (some ⟨samples.toNat, if doubleBuffer then some samples.toNat else none⟩,
       optDiags)

/-- The arguments the code hands to jstStartSignal that the properties are
about: the start time, the flattened primary buffer reference, and the
`repeat?(buffer2?buffer2:buffer):0` next-buffer argument (0 = NULL). -/
structure SignalCall where
  startTime : STime
  buffer : Nat
  nextBuffer : Nat
deriving DecidableEq, Repr

/-- jswrap_waveform_start.  `pinValid` is the jshIsPinValid oracle and
`scheduleOk` the result of jstStartSignal (modelled from the spec:
scheduleTransfer may fail when no timer task slot is available; jstimer.c is
not among the sources).  Returns the new state together with the recorded
jstStartSignal call (`none` when the code returned before reaching it). -/
def jswrap_waveform_start (st : St) (i : Nat) (pinValid : Bool) (freq : JsF)
    (options : OptVal) (scheduleOk : Bool) : St × Option SignalCall :=
  match st.store i with
  | none => (st, none)
  | some w =>
    if w.running then
      ({ st with diags := st.diags ++ [.waveformAlreadyRunning] }, none)
    else if !pinValid then
      ({ st with diags := st.diags ++ [.invalidPin] }, none)
    else if !freq.isFinite || freq.ltOne then
      ({ st with diags := st.diags ++ [.freqTooLow] }, none)
    else
      let startTime : STime :=
        match options with
        | .obj o =>
          let t := o.time.getD .nan
          if !t.isFinite ∧ t.gtZero then .fromMs t.div1000 else .now
        | _ => .now
      let doRepeat : Bool := match options with
        | .obj o => o.doRepeat
        | _ => false
      let optDiags : List Diag := match options with
        | .nonObj => [.expectingOptionsObject]
        | _ => []
      let nextB : Nat :=
        if doRepeat then (match w.buffer2 with | some b2 => b2 | none => w.buffer)
        else 0
      let schedDiags : List Diag :=
        if scheduleOk then [] else [.unableToScheduleTimer]
      let w' : WF := { w with running := true, freq := some freq }
      ({ st with
          store := setWF st.store i w',
          active := st.active ++ [i],
          diags := st.diags ++ optDiags ++ schedDiags },
       some ⟨startTime, w.buffer, nextB⟩)

/-- jswrap_waveform_stop.  `stopOk` is the result of jstStopBufferTimerTask
and `qAfter` the runner's query state after the cancellation attempt
(modelled from the spec: cancelTask may fail, in which case the task may
still be in place). -/
def jswrap_waveform_stop (st : St) (i : Nat) (stopOk : Bool) (qAfter : RunnerQ) : St :=
  let running := match st.store i with
    | some w => w.running
    | none => false
  if !running then { st with diags := st.diags ++ [.waveformNotRunning] }
  else
    let st1 := { st with
      diags := st.diags ++ (if stopOk then [] else [Diag.waveformCouldntBeStopped]) }
    jswrap_waveform_idle qAfter st1

/-- The driver state of nrf_drv_swi (m_drv_state): NRF_DRV_STATE_UNINITIALIZED
or NRF_DRV_STATE_INITIALIZED, spelled `uninit` and `inited` here. -/
inductive NrfDrvState
  | uninit
  | inited
deriving DecidableEq, Repr

/-- The ret_code_t values this driver returns: NRF_SUCCESS, NRF_ERROR_NO_MEM
and MODULE_ALREADY_INITIALIZED, spelled `success`, `errorNoMem` and
`alreadyInit` here. -/
inductive RetCode
  | success
  | errorNoMem
  | alreadyInit
deriving DecidableEq, Repr

/-- nrf_drv_swi_init, as a function from the driver state to the returned
code and the new driver state. -/
def nrf_drv_swi_init : NrfDrvState → RetCode × NrfDrvState
  | .uninit => (.success, .inited)
  | .inited => (.alreadyInit, .inited)

/-- swi_is_allocated.  `start` is SWI_START_NUMBER and `handlers` the
m_swi_handlers array (true = non-NULL handler installed); entries the list
does not cover read as NULL, matching the zero-initialised static array. -/
def swi_is_allocated (start : Nat) (handlers : List Bool) (swi : Nat) : Bool :=
  if swi < start then false else handlers.getD (swi - start) false

/-- The loop of nrf_drv_swi_alloc over the candidate indices: the first `i`
with no handler installed and with AVAILABLE_SWI bit `i` set gets the
handler installed at position `i - start`; if none qualifies the result is
`none` (NRF_ERROR_NO_MEM). -/
def swiAllocLoop (start avail : Nat) (handlers : List Bool) :
    List Nat → Option (Nat × List Bool)
  | [] => none
  | i :: rest =>
    if !(swi_is_allocated start handlers i) && avail.testBit i then
      some (i, handlers.set (i - start) true)
    else swiAllocLoop start avail handlers rest

/-- nrf_drv_swi_alloc: iterates `i` from SWI_START_NUMBER to SWI_COUNT - 1
(`count`), testing `!swi_is_allocated(i) && (AVAILABLE_SWI & (1 << i))`;
`some (i, handlers')` is NRF_SUCCESS with `*p_swi = i`, `none` is
NRF_ERROR_NO_MEM. -/
def nrf_drv_swi_alloc (start count avail : Nat) (handlers : List Bool) :
    Option (Nat × List Bool) :=
  swiAllocLoop start avail handlers (List.range' start (count - start))

/-- A sample waveform: running, single-buffered, backing storage ref 5. -/
def exRunWF : WF := ⟨true, 5, none, none, none⟩

/-- A sample waveform: not running, single-buffered, backing storage ref 5. -/
def exIdleWF : WF := ⟨false, 5, none, none, none⟩

/-- A sample double-buffered running waveform: storage refs 5 and 6. -/
def exDblWF : WF := ⟨true, 5, some 6, none, none⟩

/-- A store holding exactly one waveform, `w`, with id 1. -/
def exStore (w : WF) : Nat → Option WF :=
  fun j => if j = 1 then some w else none

/-- A state whose active set is exactly waveform 1, holding `w`. -/
def exStA (w : WF) : St := ⟨exStore w, [1], [], []⟩

/-- A state holding waveform 1 (`w`) with an empty active set. -/
def exStI (w : WF) : St := ⟨exStore w, [], [], []⟩

/-- A runner with no task at all. -/
def exQNone : RunnerQ := fun _ => none

/-- A runner with a one-shot task (no next buffer) on storage ref 5. -/
def exQOne : RunnerQ := fun b => if b = 5 then some ⟨5, 0⟩ else none

/-- A runner with a double-buffered task on storage refs 5/6, currently
transferring ref 6. -/
def exQDbl : RunnerQ := fun b => if b = 5 then some ⟨6, 5⟩ else none

theorem setWF_self (s : Nat → Option WF) (i : Nat) (w : WF) :
    setWF s i w i = some w := by
  simp [setWF]

theorem setWF_ne (s : Nat → Option WF) (i j : Nat) (w : WF) (h : j ≠ i) :
    setWF s i w j = s j := by
  simp [setWF, h]

theorem idleOne_store_frame (q : RunnerQ) (s : Nat → Option WF) (i j : Nat)
    (h : j ≠ i) : (idleOne q s i).2.1 j = s j := by
  unfold idleOne
  rcases hs : s i with _ | w
  · rfl
  · dsimp only
    split
    · rcases hq : q w.buffer with _ | task
      · simp [setWF, h]
      · dsimp only
        split
        · split <;> split <;> simp [setWF, h]
        · rfl
    · rfl

theorem idleOne_events_wf (q : RunnerQ) (s : Nat → Option WF) (i : Nat) :
    ∀ e ∈ (idleOne q s i).2.2, e.wf = i := by
  unfold idleOne
  rcases hs : s i with _ | w
  · simp
  · dsimp only
    split
    · rcases hq : q w.buffer with _ | task
      · simp
      · dsimp only
        split
        · split <;> split <;> simp
        · simp
    · simp

theorem idleGo_store_frame (q : RunnerQ) (l : List Nat) (s : Nat → Option WF)
    (i : Nat) (h : i ∉ l) : (idleGo q l s).2.1 i = s i := by
  induction l generalizing s with
  | nil => rfl
  | cons j rest ih =>
    have hij : i ≠ j := fun he => h (he ▸ List.mem_cons_self j rest)
    have hrest : i ∉ rest := fun hm => h (List.mem_cons_of_mem j hm)
    show (idleGo q rest (idleOne q s j).2.1).2.1 i = s i
    rw [ih _ hrest, idleOne_store_frame q s j i hij]

theorem idleGo_events_wf (q : RunnerQ) (l : List Nat) (s : Nat → Option WF) :
    ∀ e ∈ (idleGo q l s).2.2, e.wf ∈ l := by
  induction l generalizing s with
  | nil => simp [idleGo]
  | cons j rest ih =>
    intro e he
    have : e ∈ (idleOne q s j).2.2 ++ (idleGo q rest (idleOne q s j).2.1).2.2 := he
    rcases List.mem_append.mp this with h1 | h2
    · exact (idleOne_events_wf q s j e h1) ▸ List.mem_cons_self j rest
    · exact List.mem_cons_of_mem j (ih _ e h2)

theorem idleGo_active_sub (q : RunnerQ) (l : List Nat) (s : Nat → Option WF) :
    ∀ j ∈ (idleGo q l s).1, j ∈ l := by
  induction l generalizing s with
  | nil => simp [idleGo]
  | cons k rest ih =>
    intro j hj
    have : j ∈ (if (idleOne q s k).1 then
        k :: (idleGo q rest (idleOne q s k).2.1).1
      else (idleGo q rest (idleOne q s k).2.1).1) := hj
    split at this
    · rcases List.mem_cons.mp this with h | h
      · exact h ▸ List.mem_cons_self k rest
      · exact List.mem_cons_of_mem k (ih _ j h)
    · exact List.mem_cons_of_mem k (ih _ j this)

theorem idleGo_append (q : RunnerQ) (l1 l2 : List Nat) (s : Nat → Option WF) :
    idleGo q (l1 ++ l2) s =
      ((idleGo q l1 s).1 ++ (idleGo q l2 (idleGo q l1 s).2.1).1,
       (idleGo q l2 (idleGo q l1 s).2.1).2.1,
       (idleGo q l1 s).2.2 ++ (idleGo q l2 (idleGo q l1 s).2.1).2.2) := by
  induction l1 generalizing s with
  | nil => simp [idleGo]
  | cons j rest ih =>
    show idleGo q (j :: (rest ++ l2)) s = _
    simp only [idleGo, ih]
    split <;> simp

theorem eventsFilter_nil (i : Nat) (evs : List Event)
    (h : ∀ e ∈ evs, e.wf ≠ i) :
    evs.filter (fun e => e.wf == i) = [] := by
  rw [List.filter_eq_nil_iff]
  intro e he
  simpa using h e he

theorem idleOne_finish (q : RunnerQ) (s : Nat → Option WF) (i : Nat) (w : WF)
    (hw : s i = some w) (hr : w.running = true) (hq : q w.buffer = none) :
    idleOne q s i
      = (false, setWF s i { w with running := false }, [⟨i, .onfinish, .primary⟩]) := by
  unfold idleOne
  rw [hw]
  simp [hr, hq]

theorem idleOne_swap (q : RunnerQ) (s : Nat → Option WF) (i : Nat) (w : WF)
    (task : TimerTask) (hw : s i = some w) (hr : w.running = true)
    (hq : q w.buffer = some task) (hn0 : task.nextBuffer ≠ 0)
    (hnc : task.nextBuffer ≠ task.currentBuffer)
    (hdiff : w.currentBuffer.getD 0
      ≠ (if w.buffer = task.currentBuffer then (0 : Int) else 1)) :
    idleOne q s i
      = (true,
         setWF s i { w with
           currentBuffer := some (if w.buffer = task.currentBuffer then (0 : Int) else 1) },
         [⟨i, .onbuffer, slotOf (if w.buffer = task.currentBuffer then (0 : Int) else 1)⟩]) := by
  unfold idleOne
  rw [hw]
  simp only [hr, if_true, hq]
  rw [if_pos ⟨hn0, hnc⟩, if_pos hdiff]

theorem idleOne_noswap (q : RunnerQ) (s : Nat → Option WF) (i : Nat) (w : WF)
    (task : TimerTask) (hw : s i = some w) (hr : w.running = true)
    (hq : q w.buffer = some task) (hn0 : task.nextBuffer ≠ 0)
    (hnc : task.nextBuffer ≠ task.currentBuffer)
    (heq : w.currentBuffer.getD 0
      = (if w.buffer = task.currentBuffer then (0 : Int) else 1)) :
    idleOne q s i
      = (true, setWF s i { w with currentBuffer := some (w.currentBuffer.getD 0) }, []) := by
  unfold idleOne
  rw [hw]
  simp only [hr, if_true, hq]
  rw [if_pos ⟨hn0, hnc⟩, if_neg (by simp [heq])]

theorem idleGo_cons (q : RunnerQ) (i : Nat) (rest : List Nat) (s : Nat → Option WF) :
    idleGo q (i :: rest) s
      = (if (idleOne q s i).1 then i :: (idleGo q rest (idleOne q s i).2.1).1
          else (idleGo q rest (idleOne q s i).2.1).1,
         (idleGo q rest (idleOne q s i).2.1).2.1,
         (idleOne q s i).2.2 ++ (idleGo q rest (idleOne q s i).2.1).2.2) := rfl

theorem events_wf_ne (l : List Nat) (i : Nat) (h : i ∉ l)
    (evs : List Event) (hall : ∀ e ∈ evs, e.wf ∈ l) :
    ∀ e ∈ evs, e.wf ≠ i :=
  fun e he hei => h (hei ▸ hall e he)

theorem idleGo_finish_core (q : RunnerQ) (l1 l2 : List Nat) (i : Nat)
    (s : Nat → Option WF) (w : WF) (h1 : i ∉ l1) (h2 : i ∉ l2)
    (hw : s i = some w) (hr : w.running = true) (hq : q w.buffer = none) :
    (idleGo q (l1 ++ i :: l2) s).2.1 i = some { w with running := false }
    ∧ (idleGo q (l1 ++ i :: l2) s).2.2.filter (fun e => e.wf == i)
        = [⟨i, .onfinish, .primary⟩]
    ∧ i ∉ (idleGo q (l1 ++ i :: l2) s).1 := by
  have hA : (idleGo q l1 s).2.1 i = some w := by
    rw [idleGo_store_frame q l1 s i h1]; exact hw
  have hone := idleOne_finish q (idleGo q l1 s).2.1 i w hA hr hq
  rw [idleGo_append q l1 (i :: l2) s, idleGo_cons q i l2 ((idleGo q l1 s).2.1), hone]
  dsimp only
  refine ⟨?_, ?_, ?_⟩
  · rw [idleGo_store_frame q l2 _ i h2, setWF_self]
  · rw [List.filter_append, List.filter_append,
      eventsFilter_nil i _ (events_wf_ne l1 i h1 _ (idleGo_events_wf q l1 s)),
      eventsFilter_nil i _ (events_wf_ne l2 i h2 _ (idleGo_events_wf q l2 _))]
    simp
  · intro hmem
    rcases List.mem_append.mp hmem with hm | hm
    · exact h1 (idleGo_active_sub q l1 s i hm)
    · exact h2 (idleGo_active_sub q l2 _ i hm)

theorem idleGo_swap_core (q : RunnerQ) (l1 l2 : List Nat) (i : Nat)
    (s : Nat → Option WF) (w : WF) (task : TimerTask)
    (h1 : i ∉ l1) (h2 : i ∉ l2)
    (hw : s i = some w) (hr : w.running = true) (hq : q w.buffer = some task)
    (hn0 : task.nextBuffer ≠ 0) (hnc : task.nextBuffer ≠ task.currentBuffer)
    (hdiff : w.currentBuffer.getD 0
      ≠ (if w.buffer = task.currentBuffer then (0 : Int) else 1)) :
    (idleGo q (l1 ++ i :: l2) s).2.1 i
      = some { w with
          currentBuffer := some (if w.buffer = task.currentBuffer then (0 : Int) else 1) }
    ∧ (idleGo q (l1 ++ i :: l2) s).2.2.filter (fun e => e.wf == i)
        = [⟨i, .onbuffer, slotOf (if w.buffer = task.currentBuffer then (0 : Int) else 1)⟩]
    ∧ (∃ a1 a2, (idleGo q (l1 ++ i :: l2) s).1 = a1 ++ i :: a2 ∧ i ∉ a1 ∧ i ∉ a2) := by
  have hA : (idleGo q l1 s).2.1 i = some w := by
    rw [idleGo_store_frame q l1 s i h1]; exact hw
  have hone := idleOne_swap q (idleGo q l1 s).2.1 i w task hA hr hq hn0 hnc hdiff
  rw [idleGo_append q l1 (i :: l2) s, idleGo_cons q i l2 ((idleGo q l1 s).2.1), hone]
  dsimp only
  refine ⟨?_, ?_, ?_⟩
  · rw [idleGo_store_frame q l2 _ i h2, setWF_self]
  · rw [List.filter_append, List.filter_append,
      eventsFilter_nil i _ (events_wf_ne l1 i h1 _ (idleGo_events_wf q l1 s)),
      eventsFilter_nil i _ (events_wf_ne l2 i h2 _ (idleGo_events_wf q l2 _))]
    simp
  · refine ⟨(idleGo q l1 s).1, _, rfl, ?_, ?_⟩
    · exact fun hm => h1 (idleGo_active_sub q l1 s i hm)
    · exact fun hm => h2 (idleGo_active_sub q l2 _ i hm)

theorem idleGo_noswap_core (q : RunnerQ) (l1 l2 : List Nat) (i : Nat)
    (s : Nat → Option WF) (w : WF) (task : TimerTask)
    (h1 : i ∉ l1) (h2 : i ∉ l2)
    (hw : s i = some w) (hr : w.running = true) (hq : q w.buffer = some task)
    (hn0 : task.nextBuffer ≠ 0) (hnc : task.nextBuffer ≠ task.currentBuffer)
    (heq : w.currentBuffer.getD 0
      = (if w.buffer = task.currentBuffer then (0 : Int) else 1)) :
    (idleGo q (l1 ++ i :: l2) s).2.1 i
      = some { w with currentBuffer := some (w.currentBuffer.getD 0) }
    ∧ (idleGo q (l1 ++ i :: l2) s).2.2.filter (fun e => e.wf == i) = []
    ∧ (∃ a1 a2, (idleGo q (l1 ++ i :: l2) s).1 = a1 ++ i :: a2 ∧ i ∉ a1 ∧ i ∉ a2) := by
  have hA : (idleGo q l1 s).2.1 i = some w := by
    rw [idleGo_store_frame q l1 s i h1]; exact hw
  have hone := idleOne_noswap q (idleGo q l1 s).2.1 i w task hA hr hq hn0 hnc heq
  rw [idleGo_append q l1 (i :: l2) s, idleGo_cons q i l2 ((idleGo q l1 s).2.1), hone]
  dsimp only
  refine ⟨?_, ?_, ?_⟩
  · rw [idleGo_store_frame q l2 _ i h2, setWF_self]
  · rw [List.filter_append, List.filter_append,
      eventsFilter_nil i _ (events_wf_ne l1 i h1 _ (idleGo_events_wf q l1 s)),
      eventsFilter_nil i _ (events_wf_ne l2 i h2 _ (idleGo_events_wf q l2 _))]
    simp
  · refine ⟨(idleGo q l1 s).1, _, rfl, ?_, ?_⟩
    · exact fun hm => h1 (idleGo_active_sub q l1 s i hm)
    · exact fun hm => h2 (idleGo_active_sub q l2 _ i hm)

theorem jswrap_waveform_idle_def (q : RunnerQ) (st : St) :
    jswrap_waveform_idle q st
      = { st with active := (idleGo q st.active st.store).1,
                  store := (idleGo q st.active st.store).2.1,
                  events := st.events ++ (idleGo q st.active st.store).2.2 } := rfl

/-- Claim C7: for every running Waveform whose timer task the runner reports
absent, one poll pass sets running=false, emits exactly one "finish" event
carrying the primary buffer, and removes the Waveform from the active set;
a subsequent poll pass emits no further event for it and leaves its state
unchanged. -/
theorem waveform_idle_finish_C7 (q : RunnerQ) (st : St) (i : Nat) (w : WF)
    (l1 l2 : List Nat) (hact : st.active = l1 ++ i :: l2)
    (h1 : i ∉ l1) (h2 : i ∉ l2)
    (hw : st.store i = some w) (hr : w.running = true)
    (hq : q w.buffer = none) (hev : st.events = []) :
    (jswrap_waveform_idle q st).store i = some { w with running := false }
    ∧ (jswrap_waveform_idle q st).events.filter (fun e => e.wf == i)
        = [⟨i, .onfinish, .primary⟩]
    ∧ i ∉ (jswrap_waveform_idle q st).active
    ∧ (jswrap_waveform_idle q (jswrap_waveform_idle q st)).store i
        = (jswrap_waveform_idle q st).store i
    ∧ (jswrap_waveform_idle q (jswrap_waveform_idle q st)).events.filter
        (fun e => e.wf == i)
        = (jswrap_waveform_idle q st).events.filter (fun e => e.wf == i) := by
  have core := idleGo_finish_core q l1 l2 i st.store w h1 h2 hw hr hq
  simp only [jswrap_waveform_idle_def, hact, hev, List.nil_append]
  refine ⟨core.1, core.2.1, core.2.2, ?_, ?_⟩
  · exact idleGo_store_frame q _ _ i core.2.2
  · rw [List.filter_append,
      eventsFilter_nil i _ (events_wf_ne _ i core.2.2 _ (idleGo_events_wf q _ _)),
      List.append_nil]

theorem waveform_idle_finish_C7_witness :
    (jswrap_waveform_idle exQNone (exStA exRunWF)).store 1
        = some { exRunWF with running := false }
    ∧ (jswrap_waveform_idle exQNone (exStA exRunWF)).events.filter
        (fun e => e.wf == 1) = [⟨1, .onfinish, .primary⟩]
    ∧ 1 ∉ (jswrap_waveform_idle exQNone (exStA exRunWF)).active
    ∧ (jswrap_waveform_idle exQNone (jswrap_waveform_idle exQNone (exStA exRunWF))).store 1
        = (jswrap_waveform_idle exQNone (exStA exRunWF)).store 1
    ∧ (jswrap_waveform_idle exQNone (jswrap_waveform_idle exQNone (exStA exRunWF))).events.filter
        (fun e => e.wf == 1)
        = (jswrap_waveform_idle exQNone (exStA exRunWF)).events.filter (fun e => e.wf == 1) :=
  waveform_idle_finish_C7 exQNone (exStA exRunWF) 1 exRunWF [] []
    rfl (by simp) (by simp) rfl rfl rfl rfl

/-- Claim C2 (amended): Stop on a running Waveform runs one poll pass before
returning; whenever the cancellation attempt leaves the runner with no task
for the waveform's primary buffer (in particular whenever
jstStopBufferTimerTask succeeded), that pass sets running=false, delivers
exactly one "finish" event carrying the primary buffer, and removes the
Waveform from the active set — all synchronously within the Stop call. -/
theorem waveform_stop_C2_amended (st : St) (i : Nat) (w : WF) (stopOk : Bool)
    (qAfter : RunnerQ) (l1 l2 : List Nat) (hact : st.active = l1 ++ i :: l2)
    (h1 : i ∉ l1) (h2 : i ∉ l2) (hw : st.store i = some w) (hr : w.running = true)
    (hq : qAfter w.buffer = none) (hev : st.events = []) :
    (jswrap_waveform_stop st i stopOk qAfter).store i = some { w with running := false }
    ∧ (jswrap_waveform_stop st i stopOk qAfter).events.filter (fun e => e.wf == i)
        = [⟨i, .onfinish, .primary⟩]
    ∧ i ∉ (jswrap_waveform_stop st i stopOk qAfter).active := by
  have core := idleGo_finish_core qAfter l1 l2 i st.store w h1 h2 hw hr hq
  simp only [jswrap_waveform_stop, hw, hr, Bool.not_true, Bool.false_eq_true,
    if_false, jswrap_waveform_idle_def, hact, hev, List.nil_append]
  exact ⟨core.1, core.2.1, core.2.2⟩

/-- Claim C2 as stated is false: when jstStopBufferTimerTask fails and the
runner still holds the task, Stop leaves the Waveform running, delivers no
"finish" event, and keeps it in the active set. -/
theorem waveform_stop_C2_counterexample :
    (jswrap_waveform_stop (exStA exRunWF) 1 false exQOne).events = []
    ∧ ((jswrap_waveform_stop (exStA exRunWF) 1 false exQOne).store 1).map WF.running
        = some true
    ∧ (jswrap_waveform_stop (exStA exRunWF) 1 false exQOne).active = [1]
    ∧ (exStore exRunWF 1).map WF.running = some true := by
  exact ⟨rfl, rfl, rfl, rfl⟩

theorem waveform_stop_C2_amended_witness :
    (jswrap_waveform_stop (exStA exRunWF) 1 true exQNone).store 1
        = some { exRunWF with running := false }
    ∧ (jswrap_waveform_stop (exStA exRunWF) 1 true exQNone).events.filter
        (fun e => e.wf == 1) = [⟨1, .onfinish, .primary⟩]
    ∧ 1 ∉ (jswrap_waveform_stop (exStA exRunWF) 1 true exQNone).active :=
  waveform_stop_C2_amended (exStA exRunWF) 1 exRunWF true exQNone [] []
    rfl (by simp) (by simp) rfl rfl rfl rfl

/-- Claim C6: for every running double-buffered repeating Waveform, whenever
the runner's current-buffer index (0 if the task's current buffer equals the
primary buffer's backing storage, else 1) differs from the recorded
currentBuffer, one poll emits exactly one "buffer" event carrying the slot at
the new index and updates currentBuffer; polling again with no index change
emits no event and changes no state for that Waveform. -/
theorem waveform_idle_swap_C6 (q : RunnerQ) (st : St) (i : Nat) (w : WF)
    (task : TimerTask) (l1 l2 : List Nat)
    (hact : st.active = l1 ++ i :: l2) (h1 : i ∉ l1) (h2 : i ∉ l2)
    (hw : st.store i = some w) (hr : w.running = true)
    (hq : q w.buffer = some task) (hn0 : task.nextBuffer ≠ 0)
    (hnc : task.nextBuffer ≠ task.currentBuffer) (hev : st.events = [])
    (hdiff : w.currentBuffer.getD 0
      ≠ (if w.buffer = task.currentBuffer then (0 : Int) else 1)) :
    (jswrap_waveform_idle q st).store i
      = some { w with
          currentBuffer := some (if w.buffer = task.currentBuffer then (0 : Int) else 1) }
    ∧ (jswrap_waveform_idle q st).events.filter (fun e => e.wf == i)
        = [⟨i, .onbuffer, slotOf (if w.buffer = task.currentBuffer then (0 : Int) else 1)⟩]
    ∧ i ∈ (jswrap_waveform_idle q st).active
    ∧ (jswrap_waveform_idle q (jswrap_waveform_idle q st)).store i
        = (jswrap_waveform_idle q st).store i
    ∧ (jswrap_waveform_idle q (jswrap_waveform_idle q st)).events.filter
        (fun e => e.wf == i)
        = (jswrap_waveform_idle q st).events.filter (fun e => e.wf == i) := by
  have core := idleGo_swap_core q l1 l2 i st.store w task h1 h2 hw hr hq hn0 hnc hdiff
  obtain ⟨a1, a2, hsplit, ha1, ha2⟩ := core.2.2
  have hw' : (idleGo q (l1 ++ i :: l2) st.store).2.1 i
      = some { w with
          currentBuffer := some (if w.buffer = task.currentBuffer then (0 : Int) else 1) } := core.1
  have h2nd := idleGo_noswap_core q a1 a2 i (idleGo q (l1 ++ i :: l2) st.store).2.1
      { w with
          currentBuffer := some (if w.buffer = task.currentBuffer then (0 : Int) else 1) } task
      ha1 ha2 hw' hr hq hn0 hnc (by simp)
  simp only [jswrap_waveform_idle_def, hact, hev, List.nil_append]
  refine ⟨core.1, core.2.1, ?_, ?_, ?_⟩
  · rw [hsplit]
    exact List.mem_append.mpr (Or.inr (List.mem_cons_self i a2))
  · rw [hsplit, h2nd.1, hw']
    rfl
  · rw [hsplit, List.filter_append, h2nd.2.1, List.append_nil]

theorem waveform_idle_swap_C6_witness :
    (jswrap_waveform_idle exQDbl (exStA exDblWF)).store 1
        = some ⟨true, 5, some 6, some 1, none⟩
    ∧ (jswrap_waveform_idle exQDbl (exStA exDblWF)).events.filter (fun e => e.wf == 1)
        = [⟨1, .onbuffer, Slot.secondary⟩]
    ∧ 1 ∈ (jswrap_waveform_idle exQDbl (exStA exDblWF)).active
    ∧ (jswrap_waveform_idle exQDbl (jswrap_waveform_idle exQDbl (exStA exDblWF))).store 1
        = (jswrap_waveform_idle exQDbl (exStA exDblWF)).store 1
    ∧ (jswrap_waveform_idle exQDbl (jswrap_waveform_idle exQDbl (exStA exDblWF))).events.filter
        (fun e => e.wf == 1)
        = (jswrap_waveform_idle exQDbl (exStA exDblWF)).events.filter (fun e => e.wf == 1) :=
  waveform_idle_swap_C6 exQDbl (exStA exDblWF) 1 exDblWF ⟨6, 5⟩ [] []
    rfl (by simp) (by simp) rfl rfl rfl (by decide) (by decide) rfl (by decide)

/-- Claim C1 (amended): when jstStartSignal fails to schedule the transfer,
Start reports the non-fatal "Unable to schedule a timer" warning but — unlike
what the claim states — still sets running=true, records freq, and inserts
the Waveform into the active set; the stale entry is only removed by a later
poll pass. -/
theorem waveform_start_schedfail_C1_amended (st : St) (i : Nat) (w : WF)
    (freq : JsF) (options : OptVal)
    (hw : st.store i = some w) (hr : w.running = false)
    (hf : freq.isFinite = true) (hl : freq.ltOne = false) :
    (jswrap_waveform_start st i true freq options false).1.store i
        = some { w with running := true, freq := some freq }
    ∧ (jswrap_waveform_start st i true freq options false).1.active = st.active ++ [i]
    ∧ Diag.unableToScheduleTimer
        ∈ (jswrap_waveform_start st i true freq options false).1.diags
    ∧ Diag.isWarning .unableToScheduleTimer = true := by
  refine ⟨?_, ?_, ?_, rfl⟩ <;> simp [jswrap_waveform_start, hw, hr, hf, hl, setWF]

/-- Claim C1 as stated is false: with a valid pin and frequency and a failing
jstStartSignal, jswrap_waveform_start still sets running=true and inserts the
Waveform into the active set. -/
theorem waveform_start_schedfail_C1_counterexample :
    ((jswrap_waveform_start (exStI exIdleWF) 1 true (.fin 100) .undef false).1.store 1).map
        WF.running = some true
    ∧ (jswrap_waveform_start (exStI exIdleWF) 1 true (.fin 100) .undef false).1.active = [1]
    ∧ (jswrap_waveform_start (exStI exIdleWF) 1 true (.fin 100) .undef false).1.diags
        = [Diag.unableToScheduleTimer] := ⟨rfl, rfl, rfl⟩

theorem waveform_start_schedfail_C1_amended_witness :
    (jswrap_waveform_start (exStI exIdleWF) 1 true (.fin 100) .undef false).1.store 1
        = some { exIdleWF with running := true, freq := some (.fin 100) }
    ∧ (jswrap_waveform_start (exStI exIdleWF) 1 true (.fin 100) .undef false).1.active
        = (exStI exIdleWF).active ++ [1]
    ∧ Diag.unableToScheduleTimer
        ∈ (jswrap_waveform_start (exStI exIdleWF) 1 true (.fin 100) .undef false).1.diags
    ∧ Diag.isWarning .unableToScheduleTimer = true :=
  waveform_start_schedfail_C1_amended (exStI exIdleWF) 1 exIdleWF (.fin 100) .undef
    rfl rfl rfl (by decide)

/-- Claim C3 (amended): after jswrap_waveform_kill the active set is empty
regardless of individual cancellation outcomes, but the waveform objects are
untouched: a Waveform that was running keeps running=true (it is merely no
longer in the active set), and no events are emitted. -/
theorem waveform_kill_C3_amended (st : St) (stopOk : Nat → Bool) :
    (jswrap_waveform_kill st stopOk).active = []
    ∧ (jswrap_waveform_kill st stopOk).store = st.store
    ∧ (jswrap_waveform_kill st stopOk).events = st.events :=
  ⟨rfl, rfl, rfl⟩

/-- Claim C3 as stated is false: even when every cancellation succeeds,
shutdown leaves the previously running Waveform with running=true — only its
active-set membership is removed. -/
theorem waveform_kill_C3_counterexample :
    (jswrap_waveform_kill (exStA exRunWF) (fun _ => true)).active = []
    ∧ ((jswrap_waveform_kill (exStA exRunWF) (fun _ => true)).store 1).map WF.running
        = some true := ⟨rfl, rfl⟩

/-- Claim C4 (amended): a non-object, non-undefined options argument makes
both the constructor and Start report the "Expecting options to be undefined
or an Object" error, but neither aborts: the constructor still creates a
single-buffered Waveform, and Start still reaches jstStartSignal and marks
the Waveform running. -/
theorem waveform_nonobj_options_C4_amended (samples : Int) (st : St) (i : Nat)
    (w : WF) (freq : JsF) (scheduleOk : Bool)
    (hs : 0 < samples)
    (hw : st.store i = some w) (hr : w.running = false)
    (hf : freq.isFinite = true) (hl : freq.ltOne = false) :
    jswrap_waveform_constructor samples .nonObj true true true
        = (some ⟨samples.toNat, none⟩, [.expectingOptionsObject])
    ∧ Diag.expectingOptionsObject
        ∈ (jswrap_waveform_start st i true freq .nonObj scheduleOk).1.diags
    ∧ ((jswrap_waveform_start st i true freq .nonObj scheduleOk).2).isSome = true
    ∧ (jswrap_waveform_start st i true freq .nonObj scheduleOk).1.store i
        = some { w with running := true, freq := some freq } := by
  constructor
  · simp [jswrap_waveform_constructor, show ¬samples ≤ 0 by omega]
  · refine ⟨?_, ?_, ?_⟩ <;> simp [jswrap_waveform_start, hw, hr, hf, hl, setWF]

/-- Claim C4 as stated is false: with a non-object options value the
constructor still returns an object and Start still starts the transfer. -/
theorem waveform_nonobj_options_C4_counterexample :
    ((jswrap_waveform_constructor 4 .nonObj true true true).1).isSome = true
    ∧ ((jswrap_waveform_start (exStI exIdleWF) 1 true (.fin 100) .nonObj true).2).isSome
        = true
    ∧ ((jswrap_waveform_start (exStI exIdleWF) 1 true (.fin 100) .nonObj true).1.store 1).map
        WF.running = some true := ⟨rfl, rfl, rfl⟩

theorem waveform_nonobj_options_C4_amended_witness :
    jswrap_waveform_constructor 4 .nonObj true true true
        = (some ⟨4, none⟩, [.expectingOptionsObject])
    ∧ Diag.expectingOptionsObject
        ∈ (jswrap_waveform_start (exStI exIdleWF) 1 true (.fin 100) .nonObj true).1.diags
    ∧ ((jswrap_waveform_start (exStI exIdleWF) 1 true (.fin 100) .nonObj true).2).isSome
        = true
    ∧ (jswrap_waveform_start (exStI exIdleWF) 1 true (.fin 100) .nonObj true).1.store 1
        = some { exIdleWF with running := true, freq := some (.fin 100) } :=
  waveform_nonobj_options_C4_amended 4 (exStI exIdleWF) 1 exIdleWF (.fin 100) true
    (by decide) rfl rfl rfl (by decide)

/-- Claim C5 / code bug: the guard on the time option is
`!isfinite(t) && t>0`, so a finite positive time (the documented use, e.g.
getTime()+1) is ignored and the transfer starts at the current system time,
while t = +infinity selects the absolute-time branch. -/
theorem waveform_start_time_C5_bug :
    ((jswrap_waveform_start (exStI exIdleWF) 1 true (.fin 100)
        (.obj ⟨some (.fin 5), false, false⟩) true).2).map SignalCall.startTime
      = some .now
    ∧ ((jswrap_waveform_start (exStI exIdleWF) 1 true (.fin 100)
        (.obj ⟨some .posInf, false, false⟩) true).2).map SignalCall.startTime
      = some (.fromMs .posInf) := ⟨rfl, rfl⟩

/-- Claim C8: with samples > 0, well-formed options and successful
allocation, doubleBuffer:true yields two buffers of length samples, while
doubleBuffer:false or absent options yields exactly one buffer and no
buffer2. -/
theorem waveform_constructor_C8 (samples : Int) (t : Option JsF) (r : Bool)
    (hs : 0 < samples) :
    (jswrap_waveform_constructor samples (.obj ⟨t, r, true⟩) true true true).1
        = some ⟨samples.toNat, some samples.toNat⟩
    ∧ (jswrap_waveform_constructor samples (.obj ⟨t, r, false⟩) true true true).1
        = some ⟨samples.toNat, none⟩
    ∧ (jswrap_waveform_constructor samples .undef true true true).1
        = some ⟨samples.toNat, none⟩ := by
  refine ⟨?_, ?_, ?_⟩ <;> simp [jswrap_waveform_constructor, show ¬samples ≤ 0 by omega]

theorem waveform_constructor_C8_witness :
    (0 : Int) < 4
    ∧ (jswrap_waveform_constructor 4 (.obj ⟨none, false, true⟩) true true true).1
        = some ⟨4, some 4⟩
    ∧ (jswrap_waveform_constructor 4 (.obj ⟨none, false, false⟩) true true true).1
        = some ⟨4, none⟩
    ∧ (jswrap_waveform_constructor 4 .undef true true true).1 = some ⟨4, none⟩ :=
  ⟨by decide, (waveform_constructor_C8 4 none false (by decide)).1,
   (waveform_constructor_C8 4 none false (by decide)).2.1,
   (waveform_constructor_C8 4 none false (by decide)).2.2⟩

theorem getD_set_self (l : List Bool) (n : Nat) (b : Bool) (h : n < l.length) :
    (l.set n b).getD n false = b := by
  induction l generalizing n with
  | nil => simp at h
  | cons x xs ih =>
    cases n with
    | zero => simp
    | succ m => simpa using ih m (by simpa using h)

theorem swiAllocLoop_eq_find (start avail : Nat) (handlers : List Bool) (l : List Nat) :
    swiAllocLoop start avail handlers l
      = (l.find? (fun i => !(swi_is_allocated start handlers i) && avail.testBit i)).map
          (fun i => (i, handlers.set (i - start) true)) := by
  induction l with
  | nil => rfl
  | cons j rest ih =>
    simp only [swiAllocLoop]
    by_cases h : (!(swi_is_allocated start handlers j) && avail.testBit j) = true
    · rw [if_pos h,
        @List.find?_cons_of_pos _
          (fun i => !(swi_is_allocated start handlers i) && avail.testBit i) j rest h,
        Option.map_some']
    · rw [if_neg h,
        @List.find?_cons_of_neg _
          (fun i => !(swi_is_allocated start handlers i) && avail.testBit i) j rest h,
        ih]

/-- Claim C9: nrf_drv_swi_alloc returns NRF_SUCCESS storing into *p_swi an
index i with SWI_START_NUMBER ≤ i < SWI_COUNT that was previously
unallocated and is enabled in AVAILABLE_SWI, installing the handler at i
(which marks i allocated), and returns NRF_ERROR_NO_MEM with the handler
table unchanged exactly when no free enabled index exists. -/
theorem nrf_drv_swi_alloc_C9 (start count avail : Nat) (handlers : List Bool)
    (hlen : handlers.length = count - start) :
    (nrf_drv_swi_alloc start count avail handlers = none
      ↔ ∀ i : Nat, start ≤ i → i < count →
          ¬(swi_is_allocated start handlers i = false ∧ avail.testBit i = true))
    ∧ (∀ i h', nrf_drv_swi_alloc start count avail handlers = some (i, h') →
        start ≤ i ∧ i < count
        ∧ swi_is_allocated start handlers i = false
        ∧ avail.testBit i = true
        ∧ h' = handlers.set (i - start) true
        ∧ swi_is_allocated start h' i = true) := by
  constructor
  · rw [nrf_drv_swi_alloc, swiAllocLoop_eq_find, Option.map_eq_none', List.find?_eq_none]
    constructor
    · intro h i hsi hic hcon
      have hmem : i ∈ List.range' start (count - start) :=
        List.mem_range'_1.mpr ⟨hsi, by omega⟩
      apply h i hmem
      simp [hcon.1, hcon.2]
    · intro h i hmem
      have hrange := List.mem_range'_1.mp hmem
      intro hp
      simp only [Bool.and_eq_true, Bool.not_eq_true'] at hp
      exact h i hrange.1 (by omega) ⟨hp.1, hp.2⟩
  · intro i h' hsome
    rw [nrf_drv_swi_alloc, swiAllocLoop_eq_find, Option.map_eq_some'] at hsome
    obtain ⟨a, hfind, heq⟩ := hsome
    have hmem := List.mem_of_find?_eq_some hfind
    have hp := List.find?_some hfind
    have hrange := List.mem_range'_1.mp hmem
    simp only [Prod.mk.injEq] at heq
    obtain ⟨rfl, rfl⟩ := heq
    simp only [Bool.and_eq_true, Bool.not_eq_true'] at hp
    refine ⟨hrange.1, by omega, hp.1, hp.2, rfl, ?_⟩
    simp only [swi_is_allocated]
    rw [if_neg (by omega)]
    exact getD_set_self handlers (a - start) true (by omega)

theorem nrf_drv_swi_alloc_C9_witness :
    ([false, true, false, false] : List Bool).length = 6 - 2
    ∧ (nrf_drv_swi_alloc 2 6 60 [false, true, false, false] = none
        ↔ ∀ i : Nat, 2 ≤ i → i < 6 →
            ¬(swi_is_allocated 2 [false, true, false, false] i = false
              ∧ (60 : Nat).testBit i = true)) :=
  ⟨by decide, (nrf_drv_swi_alloc_C9 2 6 60 [false, true, false, false] (by decide)).1⟩

/-- Claim C10: nrf_drv_swi_init returns NRF_SUCCESS and moves the driver to
the NRF_DRV_STATE_INITIALIZED state when called while uninitialized, and
returns MODULE_ALREADY_INITIALIZED with the driver state unchanged on every
call made while already in the NRF_DRV_STATE_INITIALIZED state. -/
theorem nrf_drv_swi_init_C10 :
    nrf_drv_swi_init .uninit = (.success, .inited)
    ∧ nrf_drv_swi_init .inited = (.alreadyInit, .inited) := ⟨rfl, rfl⟩
